import Mathlib

/-!
Verification of the Behavioral Pattern Discovery Engine
(src/src/patterns/embedder.py and src/src/patterns/clustering.py).

Numeric values are modelled as exact rationals (`Rat`); Python floats are
treated as exact arithmetic.  Dictionaries with optional keys are modelled as
structures of `Option` fields (`none` = key absent).  External collaborators
(the sentence-transformer encoder, `datetime.fromisoformat`, sklearn's
StandardScaler/PCA and the HDBSCAN library) are modelled as explicit
environment parameters, since their code is not part of this repository.
-/

/-- Sum, mean, min and max helpers mirroring `np.mean`, `min`, `max` on
nonempty float arrays.  The empty-list values (0) are never reached on the
code paths where Python would crash or produce nan. -/
def listMean (l : List Rat) : Rat := l.sum / (l.length : Rat)

/-- Minimum of a list of rationals, 0 for the empty list. -/
def listMin (l : List Rat) : Rat :=
  match l with
  | [] => 0
  | x :: t => t.foldl min x

/-- Maximum of a list of rationals, 0 for the empty list. -/
def listMax (l : List Rat) : Rat :=
  match l with
  | [] => 0
  | x :: t => t.foldl max x

/-- Contiguous-sublist test on character lists, modelling Python's
`needle in haystack` for strings. -/
def listContainsSub (needle : List Char) : List Char → Bool
  | [] => needle.isEmpty
  | c :: t => needle.isPrefixOf (c :: t) || listContainsSub needle t

/-- Python's `needle in hay` substring test. -/
def strContainsSub (hay needle : String) : Bool :=
  listContainsSub needle.data hay.data

/-- One intent record of a user history (`user_history` element in
embedder.py).  Each field is optional: `none` models an absent dict key,
read in the source through `record.get(key, default)`. -/
structure SessionRecord where
  intent : Option String
  confidence : Option Rat
  timestamp : Option String
  channel : Option String
  engagement_level : Option String
  has_budget_constraint : Option Bool
  has_time_constraint : Option Bool
  has_knowledge_gap : Option Bool
  urgency_level : Option String
  expertise_level : Option String
deriving DecidableEq

/-- A Python exception crossing the engine's API boundaries.
`valueError` models `ValueError(msg)` raised by clustering.py itself;
`libError` models any exception raised inside the HDBSCAN library;
`typeError` models a raised TypeError: indexing `None`, or CPython's
refusal to order-compare offset-naive and offset-aware datetimes
(the `max(timestamps)` call at embedder.py line 205).
`clusteringError` is modelled from the spec: the spec's error taxonomy names
a `ClusteringError` that wraps the underlying clustering-library cause, but
no such class exists anywhere in the source repository. -/
inductive PyErr where
  | valueError (msg : String)
  | libError (msg : String)
  | typeError (msg : String)
  | clusteringError (cause : PyErr)
deriving DecidableEq

/-- A parsed timestamp as produced by `datetime.fromisoformat`: a comparison
key in epoch seconds (the instant for offset-aware values, the wall-clock
reading for offset-naive ones — Python only ever compares or subtracts
datetimes of equal awareness, where this key is exactly what it uses), the
weekday (Monday = 0), and whether the value is offset-aware (`tzinfo` set).
The timezone adjustment of `now` in the source (`astimezone`) does not
change the instant, so no separate offset is needed. -/
structure Timestamp where
  epochSeconds : Rat
  weekday : Nat
  aware : Bool
deriving DecidableEq

/-- External collaborators of `BehavioralEmbedder`: the sentence-transformer
encoder (with its reported dimension and the guarantee that every encoding
has that length), the `datetime.fromisoformat` parser (`none` = ValueError),
and the current instant `datetime.now()`. -/
structure EmbedEnv where
  embedding_dim : Nat
  encode : String → List Rat
  encode_dim : ∀ s, (encode s).length = embedding_dim
  parseTimestamp : String → Option Timestamp
  now : Timestamp

/-- BehavioralEmbedder._create_intent_sequence_embedding (embedder.py lines
95-115): build the journey narrative string and delegate to the encoder. -/
def create_intent_sequence_embedding (env : EmbedEnv) (history : List SessionRecord) : List Rat :=
  let intent_sequence := history.map (fun r => r.intent.getD ("unknown"))
  let intent_narrative := String.intercalate (" -> ") intent_sequence
  let journey_description :=
    ("User journey: ") ++ intent_narrative ++ (". Total steps: ")
      ++ toString intent_sequence.length ++ (".")
  env.encode journey_description

/-- Case-insensitive substring test against the intent label with default
empty string, modelling `needle in r.get(key, fallback).lower()`. -/
def intentHas (r : SessionRecord) (needle : String) : Bool :=
  strContainsSub (r.intent.getD ("")).toLower needle

/-- BehavioralEmbedder._extract_behavioral_features (embedder.py lines
117-182): the 15 statistical behavioral features.  Local names ending in
`_frac` correspond to the source's `..._ratio` locals. -/
def extract_behavioral_features (history : List SessionRecord) : List Rat :=
  let session_count := history.length
  let avg_confidence := listMean (history.map (fun r => r.confidence.getD (1/2)))
  let unique_intents := (history.map (fun r => r.intent.getD ("unknown"))).dedup.length
  let intent_diversity := (unique_intents : Rat) / ((max session_count 1 : Nat) : Rat)
  let research_count := history.countP (fun r => intentHas r ("research") || intentHas r ("browsing"))
  let compare_count := history.countP (fun r => intentHas r ("compare") || intentHas r ("evaluate"))
  let decision_count := history.countP (fun r => intentHas r ("ready") || intentHas r ("purchase"))
  let research_frac := (research_count : Rat) / (session_count : Rat)
  let compare_frac := (compare_count : Rat) / (session_count : Rat)
  let decision_frac := (decision_count : Rat) / (session_count : Rat)
  let engagement_levels := history.map (fun r => r.engagement_level.getD ("medium"))
  let high_engagement_frac :=
    ((engagement_levels.countP (fun e => e == ("high") || e == ("very_high"))) : Rat) / (session_count : Rat)
  let channels := history.map (fun r => r.channel.getD ("direct"))
  let channel_diversity := (channels.dedup.length : Rat) / ((max session_count 1 : Nat) : Rat)
  let deal_seeking_count := history.countP (fun r => intentHas r ("deal") || intentHas r ("price"))
  let deal_seeking_frac := (deal_seeking_count : Rat) / (session_count : Rat)
  let gift_shopping_count := history.countP (fun r => intentHas r ("gift"))
  let gift_shopping_frac := (gift_shopping_count : Rat) / (session_count : Rat)
  let reached_decision : Rat := if decision_count > 0 then 1 else 0
  let repeat_intents := session_count - unique_intents
  let repeat_frac := (repeat_intents : Rat) / ((max session_count 1 : Nat) : Rat)
  [(session_count : Rat),
   avg_confidence,
   intent_diversity,
   research_frac,
   compare_frac,
   decision_frac,
   high_engagement_frac,
   channel_diversity,
   deal_seeking_frac,
   gift_shopping_frac,
   reached_decision,
   repeat_frac,
   (unique_intents : Rat),
   (research_count : Rat),
   (compare_count : Rat)]

/-- The source's `ts_str.replace('Z', '+00:00')` (embedder.py line 196).
Since the pattern is the single character Z, Python's replace-all is exactly
per-character expansion, written here by structural recursion so that it
evaluates. -/
def replaceZ (s : String) : String :=
  String.mk (s.data.foldr
    (fun c acc => if c = ('Z') then ("+00:00").data ++ acc else c :: acc) [])

/-- The timestamp-collecting loop of _extract_temporal_features (embedder.py
lines 190-198): empty strings are skipped (`if ts_str:`), parse failures are
silently swallowed by the bare `except`. -/
def parsedTimestamps (env : EmbedEnv) (history : List SessionRecord) : List Timestamp :=
  history.filterMap (fun r =>
    let ts_str := r.timestamp.getD ("")
    if ts_str = ("") then none
    else env.parseTimestamp (replaceZ ts_str))

/-- Whether a list of parsed timestamps mixes offset-naive and offset-aware
values.  Exactly in this case Python's `max(timestamps)` at embedder.py line
205 eventually compares a naive datetime with an aware one and raises
TypeError; a uniformly naive or uniformly aware list never does. -/
def mixesAwareness (timestamps : List Timestamp) : Bool :=
  (timestamps.any (fun t => t.aware)) && (timestamps.any (fun t => !t.aware))

/-- BehavioralEmbedder._extract_temporal_features (embedder.py lines
184-227): parse timestamps (skipping empty and unparseable ones), return the
zero vector when none parse, raise TypeError when the parsed timestamps mix
offset-naive and offset-aware values (the `max(timestamps)` comparison at
line 205), else return the 5 temporal features. -/
def extract_temporal_features (env : EmbedEnv) (history : List SessionRecord) :
    Except PyErr (List Rat) :=
  if parsedTimestamps env history = [] then .ok (List.replicate 5 0)
  else if mixesAwareness (parsedTimestamps env history) then
    .error (.typeError ("comparison of offset-naive and offset-aware datetimes"))
  else
    let timestamps := parsedTimestamps env history
    let secs := timestamps.map (fun t => t.epochSeconds)
    let time_span_days := (listMax secs - listMin secs) / ((24 * 3600 : Nat) : Rat)
    let last := timestamps.getLastD (Timestamp.mk 0 0 false)
    let days_since_last := (env.now.epochSeconds - last.epochSeconds) / ((24 * 3600 : Nat) : Rat)
    let weekend_sessions := timestamps.countP (fun t => decide (5 ≤ t.weekday))
    let weekend_frac := (weekend_sessions : Rat) / (timestamps.length : Rat)
    let session_frequency := (timestamps.length : Rat) / max time_span_days 1
    .ok [time_span_days,
         days_since_last,
         weekend_frac,
         session_frequency,
         (timestamps.length : Rat)]

/-- BehavioralEmbedder._extract_constraint_features (embedder.py lines
229-274): the 5 constraint features.  Note the source's urgency default is
the string value low (`r.get(key, fallback)` with fallback low). -/
def extract_constraint_features (history : List SessionRecord) : List Rat :=
  let budget_frac :=
    ((history.countP (fun r => r.has_budget_constraint.getD false)) : Rat) / (history.length : Rat)
  let time_frac :=
    ((history.countP (fun r => r.has_time_constraint.getD false)) : Rat) / (history.length : Rat)
  let knowledge_frac :=
    ((history.countP (fun r => r.has_knowledge_gap.getD false)) : Rat) / (history.length : Rat)
  let urgency_level := listMean (history.map (fun r =>
    if r.urgency_level.getD ("low") = ("high") then (1 : Rat)
    else if r.urgency_level.getD ("low") = ("medium") then (1/2 : Rat)
    else 0))
  let expertise_scores := history.map (fun r =>
    let expertise := r.expertise_level.getD ("intermediate")
    if expertise = ("expert") then (1 : Rat)
    else if expertise = ("intermediate") then (1/2 : Rat)
    else 0)
  let avg_expertise := if expertise_scores = [] then (1/2 : Rat) else listMean expertise_scores
  [budget_frac, time_frac, knowledge_frac, urgency_level, avg_expertise]

/-- BehavioralEmbedder.create_embedding (embedder.py lines 46-93): zero
vector of dimension embedding_dim + 15 + 5 + 5 for an empty history, else
the concatenation of the four feature blocks; a TypeError raised while
computing the temporal block (mixed offset-naive/offset-aware timestamps)
propagates, since no handler surrounds the call. -/
def create_embedding (env : EmbedEnv) (user_history : List SessionRecord) :
    Except PyErr (List Rat) :=
  if user_history = [] then
    .ok (List.replicate (env.embedding_dim + 15 + 5 + 5) 0)
  else
    match extract_temporal_features env user_history with
    | .error e => .error e
    | .ok temporal_features =>
      .ok (create_intent_sequence_embedding env user_history
        ++ extract_behavioral_features user_history
        ++ temporal_features
        ++ extract_constraint_features user_history)

/-- One iteration of the create_batch_embeddings loop
(`embeddings.append(create_embedding(history))`, embedder.py line 300-301):
an exception already raised, or raised by this iteration, aborts the loop. -/
def appendEmbedding (env : EmbedEnv) (acc : Except PyErr (List (List Rat)))
    (history : List SessionRecord) : Except PyErr (List (List Rat)) :=
  match acc with
  | .error e => .error e
  | .ok embeddings =>
    match create_embedding env history with
    | .error e => .error e
    | .ok embedding => .ok (embeddings ++ [embedding])

/-- BehavioralEmbedder.create_batch_embeddings (embedder.py lines 281-305):
the accumulating loop over create_embedding. -/
def create_batch_embeddings (env : EmbedEnv) (user_histories : List (List SessionRecord)) :
    Except PyErr (List (List Rat)) :=
  user_histories.foldl (appendEmbedding env) (.ok [])

/-!
PatternClusterer (clustering.py).
-/

/-- The three result arrays the fitted HDBSCAN object exposes
(`labels_`, `probabilities_`, `outlier_scores_`). -/
structure HdbscanFit where
  labels : List Int
  probabilities : List Rat
  outlier_scores : List Rat
deriving DecidableEq

/-- External collaborators of PatternClusterer: sklearn's
`StandardScaler.fit_transform`, `PCA(k).fit_transform` (first argument is
`k`), and the HDBSCAN library: `fit mcs ms metric eps data` models
constructing `HDBSCAN(min_cluster_size=mcs, min_samples=ms, metric, eps)`
and fitting it on `data`, returning either the fit arrays or a raised
library-internal exception. -/
structure ClusterEnv where
  scale : List (List Rat) → List (List Rat)
  pcaReduce : Nat → List (List Rat) → List (List Rat)
  fit : Nat → Nat → String → Rat → List (List Rat) → Except PyErr HdbscanFit

/-- The PatternClusterer instance state: the constructor configuration plus
the four retained last-fit fields (clustering.py lines 73-77 and 93-97). -/
structure PatternClusterer where
  min_cluster_size : Nat
  min_samples : Nat
  metric : String
  cluster_selection_epsilon : Rat
  n_components_pca : Nat
  cluster_labels_ : Option (List Int)
  probabilities_ : Option (List Rat)
  outlier_scores_ : Option (List Rat)
  visualization_coords_ : Option (List (List Rat))
deriving DecidableEq

/-- PatternClusterer.__init__ (clustering.py lines 49-97): store the
configuration and initialize the four retained result fields to None.
Source defaults: min_cluster_size=50, min_samples=10, metric=euclidean,
cluster_selection_epsilon=0.0, n_components_pca=50. -/
def mkPatternClusterer (min_cluster_size min_samples : Nat) (metric : String)
    (cluster_selection_epsilon : Rat) (n_components_pca : Nat) : PatternClusterer :=
  { min_cluster_size := min_cluster_size
    min_samples := min_samples
    metric := metric
    cluster_selection_epsilon := cluster_selection_epsilon
    n_components_pca := n_components_pca
    cluster_labels_ := none
    probabilities_ := none
    outlier_scores_ := none
    visualization_coords_ := none }

/-- The row length of the embedding matrix (`embeddings.shape[1]`,
clustering.py line 120). -/
def firstRowLen (m : List (List Rat)) : Nat := (m.headD []).length

/-- The effective min_samples clamp of discover_patterns (clustering.py
lines 156-159): if N is below min_samples, clamp to max(1, N). -/
def effectiveMinSamples (st : PatternClusterer) (n_users : Nat) : Nat :=
  if n_users < st.min_samples then max 1 n_users else st.min_samples

/-- The data handed to the HDBSCAN fit (clustering.py lines 139-150):
standardize, then reduce with PCA only when requested and the embedding
dimension exceeds the configured component count. -/
def fitInput (env : ClusterEnv) (st : PatternClusterer) (embeddings : List (List Rat))
    (use_pca : Bool) : List (List Rat) :=
  if use_pca ∧ st.n_components_pca < firstRowLen embeddings then
    env.pcaReduce st.n_components_pca (env.scale embeddings)
  else env.scale embeddings

/-- PatternClusterer.discover_patterns (clustering.py lines 99-203), as a
state-passing function: returns the Python return value (or the raised
exception) together with the instance state after the call.  The
`self.clusterer` attribute (re-created each call before fitting) is not part
of the retained-result state and is folded into `env.fit`. -/
def discover_patterns (env : ClusterEnv) (st : PatternClusterer)
    (embeddings : List (List Rat)) (use_pca create_visualization : Bool) :
    Except PyErr (List Int × Option (List (List Rat))) × PatternClusterer :=
  let n_users := embeddings.length
  if n_users = 0 then
    (.error (.valueError ("No embeddings provided for clustering")), st)
  else if n_users < st.min_cluster_size then
    let labels : List Int := List.replicate n_users 0
    let viz := if create_visualization then some (List.replicate n_users [(0 : Rat), 0]) else none
    (.ok (labels, viz),
      { st with cluster_labels_ := some labels
                probabilities_ := some (List.replicate n_users 1)
                outlier_scores_ := some (List.replicate n_users 0)
                visualization_coords_ := viz })
  else
    match env.fit (min st.min_cluster_size n_users) (effectiveMinSamples st n_users) st.metric
        st.cluster_selection_epsilon (fitInput env st embeddings use_pca) with
    | .error e => (.error e, st)
    | .ok r =>
      let viz_coords :=
        if create_visualization then some (env.pcaReduce 2 (env.scale embeddings)) else none
      (.ok (r.labels, viz_coords),
        { st with cluster_labels_ := some r.labels
                  probabilities_ := some r.probabilities
                  outlier_scores_ := some r.outlier_scores
                  visualization_coords_ :=
                    if create_visualization then some (env.pcaReduce 2 (env.scale embeddings))
                    else st.visualization_coords_ })

/-- Ascending sort on integer lists (used to model Python's `sorted` and the
iteration order of CPython sets of small dense nonnegative ints). -/
def sortInts (l : List Int) : List Int := l.insertionSort (· ≤ ·)

/-- Per-cluster statistics entry (clustering.py lines 245-252). -/
structure ClusterStat where
  size : Nat
  percentage : Rat
  avg_membership_probability : Rat
  min_membership_probability : Rat
  max_membership_probability : Rat
  cohesion : Rat
deriving DecidableEq

/-- The dictionary returned by get_cluster_statistics (clustering.py lines
254-263); `clusters` lists the per-cluster entries in ascending label
order, as produced by `sorted(unique_labels)`. -/
structure ClusterStatistics where
  n_clusters : Nat
  n_noise : Nat
  n_total : Nat
  noise_percentage : Rat
  clusters : List (Int × ClusterStat)
  avg_cluster_size : Rat
  largest_cluster_size : Nat
  smallest_cluster_size : Nat
deriving DecidableEq

/-- The statistics computation of get_cluster_statistics (clustering.py
lines 228-263) as a pure function of the retained labels and
probabilities. -/
def computeStats (labels : List Int) (probs : List Rat) : ClusterStatistics :=
  let uniqueSorted := sortInts labels.dedup
  let n_clusters := uniqueSorted.length - (if (-1 : Int) ∈ uniqueSorted then 1 else 0)
  let n_noise := labels.count (-1)
  let n_total := labels.length
  let entries := (uniqueSorted.filter (fun c => decide (c ≠ -1))).map (fun label =>
    let cluster_probs := ((labels.zip probs).filter (fun p => p.1 = label)).map (fun p => p.2)
    let cluster_size := labels.count label
    (label,
      { size := cluster_size
        percentage := (cluster_size : Rat) / (n_total : Rat) * 100
        avg_membership_probability := listMean cluster_probs
        min_membership_probability := listMin cluster_probs
        max_membership_probability := listMax cluster_probs
        cohesion := listMean cluster_probs : ClusterStat }))
  { n_clusters := n_clusters
    n_noise := n_noise
    n_total := n_total
    noise_percentage := (n_noise : Rat) / (n_total : Rat) * 100
    clusters := entries
    avg_cluster_size :=
      if entries = [] then 0 else listMean (entries.map (fun p => (p.2.size : Rat)))
    largest_cluster_size :=
      match entries.map (fun p => p.2.size) with
      | [] => 0
      | x :: t => t.foldl max x
    smallest_cluster_size :=
      match entries.map (fun p => p.2.size) with
      | [] => 0
      | x :: t => t.foldl min x }

/-- PatternClusterer.get_cluster_statistics (clustering.py lines 219-263):
ValueError before any successful discover_patterns call, otherwise the
statistics computed from the retained labels and probabilities.  (If labels
were set but probabilities were None, Python would raise a TypeError when
indexing; this state is unreachable through the public API.) -/
def get_cluster_statistics (st : PatternClusterer) : Except PyErr ClusterStatistics :=
  match st.cluster_labels_ with
  | none => .error (.valueError ("Must run discover_patterns() first"))
  | some labels =>
    match st.probabilities_ with
    | none => .error (.typeError ("probabilities_ is None"))
    | some probs => .ok (computeStats labels probs)

/-!
validate_cluster_stability (clustering.py lines 265-340).
-/

/-- Member index set of a cluster: `set(np.where(labels == c)[0])`
(clustering.py lines 304-305, 312-313), as the increasing list of indices
`i` with `labels[i] = c`. -/
def membersOf (labels : List Int) (c : Int) : List Nat :=
  (labels.enum.filter (fun p => p.2 = c)).map (fun p => p.1)

/-- Jaccard similarity of two duplicate-free index lists (clustering.py
lines 315-318): `len(s1 & s2) / len(s1 | s2)`, 0 when the union is empty. -/
def jaccardOverlap (s1 s2 : List Nat) : Rat :=
  let intersection := (s1.filter (fun i => i ∈ s2)).length
  let union := s1.length + s2.length - intersection
  if union = 0 then 0 else (intersection : Rat) / (union : Rat)

/-- The non-noise cluster ids of a label array: `set(labels) - {-1}`
(clustering.py lines 297-298).  CPython iterates a set of small dense
nonnegative ints in increasing order, so the set is modelled as the
ascending duplicate-free list. -/
def uniqueNonNoise (labels : List Int) : List Int :=
  sortInts (labels.dedup.filter (fun c => decide (c ≠ -1)))

/-- One entry of the `overlap_scores` dict (clustering.py lines 324-328). -/
structure OverlapEntry where
  overlap : Rat
  best_match : Option Int
  is_stable : Bool
deriving DecidableEq

/-- The inner best-match loop for one period-1 cluster (clustering.py lines
303-328): scan the period-2 clusters, keeping the running maximum overlap
(strict improvement only, starting from `max_overlap = 0.0`,
`best_match = None`). -/
def overlapEntryFor (labels1 labels2 : List Int) (threshold : Rat) (label1 : Int) :
    OverlapEntry :=
  let users1 := membersOf labels1 label1
  let r := (uniqueNonNoise labels2).foldl
    (fun acc label2 =>
      let overlap := jaccardOverlap users1 (membersOf labels2 label2)
      if acc.1 < overlap then (overlap, some label2) else acc)
    ((0 : Rat), (none : Option Int))
  { overlap := r.1, best_match := r.2, is_stable := decide (threshold ≤ r.1) }

/-- The full `overlap_scores` association list, keyed by period-1 cluster id
(clustering.py lines 300-328). -/
def overlap_scores_calc (labels1 labels2 : List Int) (threshold : Rat) :
    List (Int × OverlapEntry) :=
  (uniqueNonNoise labels1).map (fun label1 =>
    (label1, overlapEntryFor labels1 labels2 threshold label1))

/-- The dictionary returned by validate_cluster_stability (clustering.py
lines 333-340). -/
structure StabilityReport where
  n_patterns_period1 : Nat
  n_patterns_period2 : Nat
  overlap_scores : List (Int × OverlapEntry)
  n_stable_patterns : Nat
  stability_rate : Rat
  threshold_used : Rat
deriving DecidableEq

/-- Assemble the stability report from the two label arrays (clustering.py
lines 296-340). -/
def mkStabilityReport (labels1 labels2 : List Int) (threshold : Rat) : StabilityReport :=
  let unique_labels1 := uniqueNonNoise labels1
  let unique_labels2 := uniqueNonNoise labels2
  let scores := overlap_scores_calc labels1 labels2 threshold
  let stable_patterns := (scores.filter (fun p => p.2.is_stable)).length
  { n_patterns_period1 := unique_labels1.length
    n_patterns_period2 := unique_labels2.length
    overlap_scores := scores
    n_stable_patterns := stable_patterns
    stability_rate :=
      if unique_labels1 = [] then 0
      else (stable_patterns : Rat) / (unique_labels1.length : Rat)
    threshold_used := threshold }

/-- PatternClusterer.validate_cluster_stability (clustering.py lines
265-340): cluster period 1 on `self` (use_pca at its default True, no
visualization), cluster period 2 on a freshly constructed clusterer with the
same configuration, then compare the two label arrays.  The default
threshold in the source is 0.3. -/
def validate_cluster_stability (env : ClusterEnv) (st : PatternClusterer)
    (embeddings1 embeddings2 : List (List Rat)) (threshold : Rat) :
    Except PyErr StabilityReport × PatternClusterer :=
  match discover_patterns env st embeddings1 true false with
  | (.error e, st1) => (.error e, st1)
  | (.ok (labels1, _), st1) =>
    let fresh := mkPatternClusterer st.min_cluster_size st.min_samples st.metric
      st.cluster_selection_epsilon st.n_components_pca
    match discover_patterns env fresh embeddings2 true false with
    | (.error e, _) => (.error e, st1)
    | (.ok (labels2, _), _) => (.ok (mkStabilityReport labels1 labels2 threshold), st1)

/-!
Concrete instances used by witnesses and counterexamples.
-/

/-- A concrete session record whose `urgency_level` key is absent. -/
def rec0 : SessionRecord :=
  { intent := some ("compare_options"), confidence := some (9/10), timestamp := none,
    channel := some ("organic"), engagement_level := some ("high"),
    has_budget_constraint := some false, has_time_constraint := some false,
    has_knowledge_gap := some false, urgency_level := none,
    expertise_level := some ("expert") }

/-- A concrete embedding environment with a 2-dimensional stub encoder. -/
def env0 : EmbedEnv :=
  { embedding_dim := 2, encode := fun _ => [0, 0], encode_dim := fun _ => rfl,
    parseTimestamp := fun _ => none, now := ⟨0, 0, false⟩ }

/-- A concrete embedding environment whose timestamp parser returns an
offset-naive value for the bare ISO string and an offset-aware value for the
string carrying a +00:00 offset (as `datetime.fromisoformat` does). -/
def envMixed : EmbedEnv :=
  { embedding_dim := 2, encode := fun _ => [0, 0], encode_dim := fun _ => rfl,
    parseTimestamp := fun s =>
      if s = ("2025-01-15T10:00:00") then some ⟨0, 2, false⟩
      else if s = ("2025-01-15T11:00:00+00:00") then some ⟨0, 2, true⟩
      else none,
    now := ⟨0, 0, false⟩ }

/-- A two-record history whose first timestamp is offset-naive and whose
second carries a Z suffix, hence parses offset-aware: at embedder.py line
205 `max(timestamps)` compares the two and raises TypeError. -/
def historyMixed : List SessionRecord :=
  [{ intent := some ("research_category"), confidence := none,
     timestamp := some ("2025-01-15T10:00:00"), channel := none,
     engagement_level := none, has_budget_constraint := none,
     has_time_constraint := none, has_knowledge_gap := none,
     urgency_level := none, expertise_level := none },
   { intent := some ("compare_options"), confidence := none,
     timestamp := some ("2025-01-15T11:00:00Z"), channel := none,
     engagement_level := none, has_budget_constraint := none,
     has_time_constraint := none, has_knowledge_gap := none,
     urgency_level := none, expertise_level := none }]

/-- Tests whether an embedder call returned normally. -/
def exceptIsOk : Except PyErr (List Rat) → Bool
  | .ok _ => true
  | .error _ => false

/-- A concrete clustering environment whose library fit always succeeds. -/
def cenv0 : ClusterEnv :=
  { scale := fun m => m, pcaReduce := fun _ m => m,
    fit := fun _ _ _ _ _ => .ok ⟨[0], [1], [0]⟩ }

/-- A freshly constructed clusterer with the source's default configuration
(min_cluster_size=50, min_samples=10, metric=euclidean, eps=0, pca=50). -/
def st50 : PatternClusterer := mkPatternClusterer 50 10 ("euclidean") 0 50


/-- Per-record urgency score with the amended default: a record missing
`urgency_level` is treated as low and contributes 0.0 (high=1.0, medium=0.5,
anything else 0.0). -/
def urgencyScoreSpec (r : SessionRecord) : Rat :=
  match r.urgency_level with
  | none => 0
  | some u => if u = ("high") then 1 else if u = ("medium") then 1/2 else 0

/-- Per-record expertise score per the documented default: a record missing
`expertise_level` is treated as intermediate and contributes 0.5
(expert=1.0, intermediate=0.5, anything else 0.0). -/
def expertiseScoreSpec (r : SessionRecord) : Rat :=
  match r.expertise_level with
  | none => 1/2
  | some e => if e = ("expert") then 1 else if e = ("intermediate") then 1/2 else 0

/-- A clustering environment whose library fit always raises an internal
HDBSCAN error. -/
def cenvFail : ClusterEnv :=
  { scale := fun m => m, pcaReduce := fun _ m => m,
    fit := fun _ _ _ _ _ => .error (.libError ("hdbscan internal failure")) }

/-- A clusterer configured with min_cluster_size 1 so that a one-point batch
reaches the real clustering branch. -/
def stC7 : PatternClusterer := mkPatternClusterer 1 1 ("euclidean") 0 50

/-- Tests whether a discover_patterns outcome is a raised ClusteringError
(the wrapper named by the spec). -/
def isClusteringErrorResult : Except PyErr (List Int × Option (List (List Rat))) → Bool
  | .error (.clusteringError _) => true
  | _ => false

/-- A clustering environment for the stability counterexample: the library
assigns one real cluster and one noise point in each period, on member index
sets that are disjoint across the periods. -/
def cenvC5 : ClusterEnv :=
  { scale := fun m => m, pcaReduce := fun _ m => m,
    fit := fun _ _ _ _ data =>
      .ok (if data.length = 2 then ⟨[0, -1], [1, 1], [0, 0]⟩
           else ⟨[-1, -1, 0], [1, 1, 1], [0, 0, 0]⟩) }

/-- A clusterer whose min_cluster_size is met by two-point batches. -/
def stC5 : PatternClusterer := mkPatternClusterer 2 1 ("euclidean") 0 50

/-- The maximum Jaccard overlap a period-1 member set attains against the
non-noise clusters of a period-2 label array (0 when there are none). -/
def maxJaccardOverlap (users1 : List Nat) (labels2 : List Int) : Rat :=
  (uniqueNonNoise labels2).foldl
    (fun m c => max m (jaccardOverlap users1 (membersOf labels2 c))) 0

/-- The generic strict-improvement step of the best-match scan: keep the
candidate only when it strictly exceeds the running maximum. -/
def bestStep (f : Int → Rat) (acc : Rat × Option Int) (c : Int) : Rat × Option Int :=
  if acc.1 < f c then (f c, some c) else acc

/-- Running maximum of `f` over a list, seeded at `m`. -/
def runMax (f : Int → Rat) (l : List Int) (m : Rat) : Rat :=
  l.foldl (fun a c => max a (f c)) m

/-!
Branch-unfolding lemmas for discover_patterns.
-/

theorem discover_patterns_empty (env : ClusterEnv) (st : PatternClusterer)
    (embeddings : List (List Rat)) (use_pca create_visualization : Bool)
    (h0 : embeddings.length = 0) :
    discover_patterns env st embeddings use_pca create_visualization
      = (.error (.valueError ("No embeddings provided for clustering")), st) := by
  unfold discover_patterns
  simp only [if_pos h0]

theorem discover_patterns_degraded (env : ClusterEnv) (st : PatternClusterer)
    (embeddings : List (List Rat)) (use_pca create_visualization : Bool)
    (h0 : ¬ embeddings.length = 0) (h2 : embeddings.length < st.min_cluster_size) :
    discover_patterns env st embeddings use_pca create_visualization
      = (.ok (List.replicate embeddings.length 0,
            if create_visualization then some (List.replicate embeddings.length [(0 : Rat), 0])
            else none),
         { st with cluster_labels_ := some (List.replicate embeddings.length 0)
                   probabilities_ := some (List.replicate embeddings.length 1)
                   outlier_scores_ := some (List.replicate embeddings.length 0)
                   visualization_coords_ :=
                     if create_visualization
                     then some (List.replicate embeddings.length [(0 : Rat), 0])
                     else none }) := by
  unfold discover_patterns
  simp only [if_neg h0, if_pos h2]

theorem discover_patterns_full (env : ClusterEnv) (st : PatternClusterer)
    (embeddings : List (List Rat)) (use_pca create_visualization : Bool)
    (h0 : ¬ embeddings.length = 0) (h2 : ¬ embeddings.length < st.min_cluster_size) :
    discover_patterns env st embeddings use_pca create_visualization
      = match env.fit (min st.min_cluster_size embeddings.length)
            (effectiveMinSamples st embeddings.length) st.metric st.cluster_selection_epsilon
            (fitInput env st embeddings use_pca) with
        | .error e => (.error e, st)
        | .ok r =>
          (.ok (r.labels,
              if create_visualization then some (env.pcaReduce 2 (env.scale embeddings))
              else none),
           { st with cluster_labels_ := some r.labels
                     probabilities_ := some r.probabilities
                     outlier_scores_ := some r.outlier_scores
                     visualization_coords_ :=
                       if create_visualization then some (env.pcaReduce 2 (env.scale embeddings))
                       else st.visualization_coords_ }) := by
  unfold discover_patterns
  simp only [if_neg h0, if_neg h2]

/-!
Claim theorems.
-/

theorem extract_behavioral_features_len (history : List SessionRecord) :
    (extract_behavioral_features history).length = 15 := rfl

theorem extract_temporal_features_ok_len (env : EmbedEnv) (history : List SessionRecord)
    (h : mixesAwareness (parsedTimestamps env history) = false) :
    ∃ tf, extract_temporal_features env history = .ok tf ∧ tf.length = 5 := by
  unfold extract_temporal_features
  by_cases hemp : parsedTimestamps env history = []
  · rw [if_pos hemp]
    exact ⟨_, rfl, rfl⟩
  · rw [if_neg hemp, if_neg (by simp [h])]
    exact ⟨_, rfl, rfl⟩

theorem extract_constraint_features_len (history : List SessionRecord) :
    (extract_constraint_features history).length = 5 := rfl

theorem create_intent_sequence_embedding_len (env : EmbedEnv) (history : List SessionRecord) :
    (create_intent_sequence_embedding env history).length = env.embedding_dim := by
  unfold create_intent_sequence_embedding
  exact env.encode_dim _

/-- Counterexample to C1: a concrete non-empty two-record history whose
first timestamp parses offset-naive and whose second (Z-suffixed) parses
offset-aware.  At embedder.py line 205 `max(timestamps)` compares the two
and raises TypeError, so create_embedding raises instead of returning a
vector of length E + 25. -/
theorem C1_counterexample :
    create_embedding envMixed historyMixed
      = .error (.typeError ("comparison of offset-naive and offset-aware datetimes"))
    ∧ exceptIsOk (create_embedding envMixed historyMixed) = false
    ∧ historyMixed ≠ [] := by
  refine ⟨rfl, rfl, by decide⟩

/-- C1 (amended): for every non-empty user history whose parsed timestamps
do not mix offset-naive and offset-aware values, create_embedding returns a
vector of length exactly E + 25 (E the encoder dimension); for the empty
history it returns the all-zero vector of that same length and does not
raise. -/
theorem C1_amended_dimension (env : EmbedEnv) (history : List SessionRecord) :
    (history ≠ [] → mixesAwareness (parsedTimestamps env history) = false →
      ∃ v, create_embedding env history = .ok v ∧ v.length = env.embedding_dim + 25)
    ∧ (history = [] →
        create_embedding env history = .ok (List.replicate (env.embedding_dim + 25) 0)) := by
  constructor
  · intro hne hmix
    obtain ⟨tf, htf, hlen⟩ := extract_temporal_features_ok_len env history hmix
    unfold create_embedding
    rw [if_neg hne, htf]
    refine ⟨_, rfl, ?_⟩
    simp only [List.length_append, extract_behavioral_features_len,
      extract_constraint_features_len, create_intent_sequence_embedding_len, hlen]
  · intro he
    subst he
    unfold create_embedding
    rw [if_pos rfl]

/-- Witness for C1 (amended) at a concrete encoder and a concrete one-record
history without timestamps, and at the empty history. -/
theorem C1_amended_dimension_w :
    (∃ v, create_embedding env0 [rec0] = .ok v ∧ v.length = env0.embedding_dim + 25)
    ∧ create_embedding env0 [] = .ok (List.replicate (env0.embedding_dim + 25) 0) :=
  ⟨(C1_amended_dimension env0 [rec0]).1 (by simp) rfl,
   (C1_amended_dimension env0 []).2 rfl⟩

/-- C2: in degraded mode (1 <= N < min_cluster_size) discover_patterns skips
real clustering and returns the all-zero label vector of length N, retaining
membership probability 1.0 and outlier score 0.0 for every point. -/
theorem C2_degraded_mode (env : ClusterEnv) (st : PatternClusterer)
    (embeddings : List (List Rat)) (use_pca create_visualization : Bool)
    (h1 : 1 ≤ embeddings.length) (h2 : embeddings.length < st.min_cluster_size) :
    (discover_patterns env st embeddings use_pca create_visualization).1
      = .ok (List.replicate embeddings.length 0,
          if create_visualization then some (List.replicate embeddings.length [(0 : Rat), 0])
          else none)
    ∧ ((discover_patterns env st embeddings use_pca create_visualization).2).cluster_labels_
        = some (List.replicate embeddings.length 0)
    ∧ ((discover_patterns env st embeddings use_pca create_visualization).2).probabilities_
        = some (List.replicate embeddings.length 1)
    ∧ ((discover_patterns env st embeddings use_pca create_visualization).2).outlier_scores_
        = some (List.replicate embeddings.length 0) := by
  have h0 : ¬ embeddings.length = 0 := by omega
  have hd := discover_patterns_degraded env st embeddings use_pca create_visualization h0 h2
  exact ⟨by rw [hd], by rw [hd], by rw [hd], by rw [hd]⟩

/-- Witness for C2 on a one-point batch against the default configuration. -/
theorem C2_degraded_mode_w :
    (discover_patterns cenv0 st50 [[(0 : Rat)]] true true).1
      = .ok (List.replicate 1 0,
          if true then some (List.replicate 1 [(0 : Rat), 0]) else none)
    ∧ ((discover_patterns cenv0 st50 [[(0 : Rat)]] true true).2).cluster_labels_
        = some (List.replicate 1 0)
    ∧ ((discover_patterns cenv0 st50 [[(0 : Rat)]] true true).2).probabilities_
        = some (List.replicate 1 1)
    ∧ ((discover_patterns cenv0 st50 [[(0 : Rat)]] true true).2).outlier_scores_
        = some (List.replicate 1 0) :=
  C2_degraded_mode cenv0 st50 [[(0 : Rat)]] true true (by simp) (by decide)

theorem foldl_appendEmbedding_error (env : EmbedEnv) (hs : List (List SessionRecord))
    (e : PyErr) : hs.foldl (appendEmbedding env) (.error e) = .error e := by
  induction hs with
  | nil => rfl
  | cons h t ih =>
    rw [List.foldl_cons]
    exact ih

theorem foldl_appendEmbedding_ok (env : EmbedEnv) (hs : List (List SessionRecord)) :
    ∀ acc m : List (List Rat),
      hs.foldl (appendEmbedding env) (.ok acc) = .ok m →
      ∃ tail, m = acc ++ tail ∧ tail.length = hs.length
        ∧ ∀ i, i < hs.length → create_embedding env (hs.getD i []) = .ok (tail.getD i []) := by
  induction hs with
  | nil =>
    intro acc m hm
    simp only [List.foldl_nil, Except.ok.injEq] at hm
    subst hm
    refine ⟨[], by simp, rfl, ?_⟩
    intro i hi
    simp at hi
  | cons h t ih =>
    intro acc m hm
    rw [List.foldl_cons] at hm
    rcases hce : create_embedding env h with e | v
    · rw [show appendEmbedding env (.ok acc) h = .error e by
        simp [appendEmbedding, hce]] at hm
      rw [foldl_appendEmbedding_error] at hm
      exact absurd hm (by simp)
    · rw [show appendEmbedding env (.ok acc) h = .ok (acc ++ [v]) by
        simp [appendEmbedding, hce]] at hm
      obtain ⟨tail, hm1, hm2, hm3⟩ := ih (acc ++ [v]) m hm
      refine ⟨v :: tail, by simp [hm1], by simp [hm2], ?_⟩
      intro i hi
      cases i with
      | zero => simpa using hce
      | succ n =>
        simp only [List.getD_cons_succ]
        exact hm3 n (by simpa using hi)

/-- C3: whenever create_batch_embeddings returns a matrix, the matrix has
one row per history and row i equals the vector create_embedding returns on
the i-th history, for every i (when some history raises, the batch loop
propagates the same exception and there is no matrix). -/
theorem C3_batch_rows (env : EmbedEnv) (hs : List (List SessionRecord))
    (m : List (List Rat)) (hok : create_batch_embeddings env hs = .ok m) :
    m.length = hs.length
    ∧ ∀ i, i < hs.length → create_embedding env (hs.getD i []) = .ok (m.getD i []) := by
  obtain ⟨tail, h1, h2, h3⟩ := foldl_appendEmbedding_ok env hs [] m hok
  simp only [List.nil_append] at h1
  subst h1
  exact ⟨h2, h3⟩

/-- Witness for C3 at a concrete batch of one empty history. -/
theorem C3_batch_rows_w :
    ([List.replicate 27 (0 : Rat)]).length = ([[]] : List (List SessionRecord)).length
    ∧ ∀ i, i < ([[]] : List (List SessionRecord)).length →
        create_embedding env0 (([[]] : List (List SessionRecord)).getD i [])
          = .ok (([List.replicate 27 (0 : Rat)]).getD i []) :=
  C3_batch_rows env0 [[]] [List.replicate 27 0] rfl

/-- Counterexample to C4: for the one-record history whose record lacks the
`urgency_level` key, the constraint block's mean urgency score (entry 3 of
the constraint features) is 0, not the 0.5 a default of medium would give:
the source's fallback in `r.get` is the string low. -/
theorem C4_counterexample :
    (extract_constraint_features [rec0]).getD 3 0 = 0 ∧ ¬ ((0 : Rat) = 1/2) := by
  constructor
  · simp [extract_constraint_features, listMean, rec0]
  · norm_num

/-- C4 (amended): for every non-empty history, the constraint block's mean
urgency score treats a record missing `urgency_level` as low (contributing
0.0, with high=1.0, medium=0.5, low=0.0), and its mean expertise score
treats a record missing `expertise_level` as intermediate (contributing
0.5). -/
theorem C4_amended_defaults (history : List SessionRecord) (hne : history ≠ []) :
    (extract_constraint_features history).getD 3 0
        = (history.map urgencyScoreSpec).sum / (history.length : Rat)
    ∧ (extract_constraint_features history).getD 4 0
        = (history.map expertiseScoreSpec).sum / (history.length : Rat) := by
  have hu : (fun r : SessionRecord =>
      if r.urgency_level.getD ("low") = ("high") then (1 : Rat)
      else if r.urgency_level.getD ("low") = ("medium") then (1/2 : Rat)
      else 0) = urgencyScoreSpec := by
    funext r
    cases hr : r.urgency_level with
    | none => simp [urgencyScoreSpec, hr]
    | some u => simp [urgencyScoreSpec, hr]
  have he : (fun r : SessionRecord =>
      let expertise := r.expertise_level.getD ("intermediate")
      if expertise = ("expert") then (1 : Rat)
      else if expertise = ("intermediate") then (1/2 : Rat)
      else 0) = expertiseScoreSpec := by
    funext r
    cases hr : r.expertise_level with
    | none => simp [expertiseScoreSpec, hr]
    | some e => simp [expertiseScoreSpec, hr]
  have hmapne : history.map expertiseScoreSpec ≠ [] := by
    simpa using hne
  constructor
  · unfold extract_constraint_features
    simp only [List.getD_cons_succ, List.getD_cons_zero, hu, listMean, List.length_map]
  · unfold extract_constraint_features
    simp only [List.getD_cons_succ, List.getD_cons_zero, he, listMean, List.length_map]
    rw [if_neg hmapne]

/-- Witness for C4 (amended) at the concrete one-record history. -/
theorem C4_amended_defaults_w :
    (extract_constraint_features [rec0]).getD 3 0
        = ([rec0].map urgencyScoreSpec).sum / (([rec0] : List SessionRecord).length : Rat)
    ∧ (extract_constraint_features [rec0]).getD 4 0
        = ([rec0].map expertiseScoreSpec).sum / (([rec0] : List SessionRecord).length : Rat) :=
  C4_amended_defaults [rec0] (by simp)

/-- C6: discover_patterns raises the empty-input ValueError (the spec's
InvalidInputError) exactly on the empty batch, leaving the caller to see the
exception immediately (no retry exists in the code); for N >= 1 it returns
normally whenever the clustering library itself returns normally. -/
theorem C6_empty_batch_error (env : ClusterEnv) (st : PatternClusterer)
    (embeddings : List (List Rat)) (use_pca create_visualization : Bool) :
    (embeddings.length = 0 →
      discover_patterns env st embeddings use_pca create_visualization
        = (.error (.valueError ("No embeddings provided for clustering")), st))
    ∧ (1 ≤ embeddings.length →
        (∀ a b m e d, ∃ r, env.fit a b m e d = .ok r) →
        ∃ out st2, discover_patterns env st embeddings use_pca create_visualization
          = (.ok out, st2)) := by
  constructor
  · intro h0
    exact discover_patterns_empty env st embeddings use_pca create_visualization h0
  · intro h1 hfit
    have h0 : ¬ embeddings.length = 0 := by omega
    by_cases h2 : embeddings.length < st.min_cluster_size
    · exact ⟨_, _, discover_patterns_degraded env st embeddings use_pca create_visualization h0 h2⟩
    · obtain ⟨r, hr⟩ := hfit (min st.min_cluster_size embeddings.length)
        (effectiveMinSamples st embeddings.length) st.metric st.cluster_selection_epsilon
        (fitInput env st embeddings use_pca)
      have hfull := discover_patterns_full env st embeddings use_pca create_visualization h0 h2
      rw [hr] at hfull
      exact ⟨_, _, hfull⟩

/-- Witness for C6 at a concrete environment, on both the empty batch and a
one-point batch. -/
theorem C6_empty_batch_error_w :
    (discover_patterns cenv0 st50 ([] : List (List Rat)) true true
        = (.error (.valueError ("No embeddings provided for clustering")), st50))
    ∧ ∃ out st2, discover_patterns cenv0 st50 [[(0 : Rat)]] true true = (.ok out, st2) :=
  ⟨(C6_empty_batch_error cenv0 st50 [] true true).1 rfl,
   (C6_empty_batch_error cenv0 st50 [[(0 : Rat)]] true true).2 (by simp)
     (fun a b m e d => ⟨⟨[0], [1], [0]⟩, rfl⟩)⟩

/-- Counterexample to C7: on a concrete input whose library fit raises an
internal error, discover_patterns propagates that error object unchanged; it
is not a ClusteringError wrapping the cause (no such wrapper exists in the
source: the fit call is not inside any try/except). -/
theorem C7_counterexample :
    (discover_patterns cenvFail stC7 [[(1 : Rat)]] true true).1
      = .error (.libError ("hdbscan internal failure"))
    ∧ isClusteringErrorResult (discover_patterns cenvFail stC7 [[(1 : Rat)]] true true).1
      = false := by
  constructor
  · rfl
  · rfl

/-- C7 (amended): an internal error raised by the clustering library during
discover_patterns propagates to the caller unchanged (unwrapped), the
retained instance state is left untouched, and no retry happens. -/
theorem C7_amended_propagation (env : ClusterEnv) (st : PatternClusterer)
    (embeddings : List (List Rat)) (use_pca create_visualization : Bool) (e : PyErr)
    (h0 : ¬ embeddings.length = 0) (h2 : ¬ embeddings.length < st.min_cluster_size)
    (hfit : env.fit (min st.min_cluster_size embeddings.length)
        (effectiveMinSamples st embeddings.length) st.metric st.cluster_selection_epsilon
        (fitInput env st embeddings use_pca) = .error e) :
    discover_patterns env st embeddings use_pca create_visualization = (.error e, st) := by
  rw [discover_patterns_full env st embeddings use_pca create_visualization h0 h2, hfit]

/-- Witness for C7 (amended) at the concrete failing environment. -/
theorem C7_amended_propagation_w :
    discover_patterns cenvFail stC7 [[(1 : Rat)]] true true
      = (.error (.libError ("hdbscan internal failure")), stC7) :=
  C7_amended_propagation cenvFail stC7 [[(1 : Rat)]] true true
    (.libError ("hdbscan internal failure")) (by simp) (by decide) rfl

/-- C9: in degraded mode with visualization requested the returned and
retained 2-D projection is the all-zero N-by-2 matrix; with visualization
not requested the retained projection is None and None is returned. -/
theorem C9_degraded_visualization (env : ClusterEnv) (st : PatternClusterer)
    (embeddings : List (List Rat)) (use_pca : Bool)
    (h1 : 1 ≤ embeddings.length) (h2 : embeddings.length < st.min_cluster_size) :
    (discover_patterns env st embeddings use_pca true).1
        = .ok (List.replicate embeddings.length 0,
            some (List.replicate embeddings.length [(0 : Rat), 0]))
    ∧ ((discover_patterns env st embeddings use_pca true).2).visualization_coords_
        = some (List.replicate embeddings.length [(0 : Rat), 0])
    ∧ (discover_patterns env st embeddings use_pca false).1
        = .ok (List.replicate embeddings.length 0, none)
    ∧ ((discover_patterns env st embeddings use_pca false).2).visualization_coords_
        = none := by
  have h0 : ¬ embeddings.length = 0 := by omega
  have hdT := discover_patterns_degraded env st embeddings use_pca true h0 h2
  have hdF := discover_patterns_degraded env st embeddings use_pca false h0 h2
  exact ⟨by simp [hdT], by simp [hdT], by simp [hdF], by simp [hdF]⟩

/-- Witness for C9 on a concrete one-point batch. -/
theorem C9_degraded_visualization_w :
    (discover_patterns cenv0 st50 [[(0 : Rat)]] true true).1
        = .ok (List.replicate 1 0, some (List.replicate 1 [(0 : Rat), 0]))
    ∧ ((discover_patterns cenv0 st50 [[(0 : Rat)]] true true).2).visualization_coords_
        = some (List.replicate 1 [(0 : Rat), 0])
    ∧ (discover_patterns cenv0 st50 [[(0 : Rat)]] true false).1
        = .ok (List.replicate 1 0, none)
    ∧ ((discover_patterns cenv0 st50 [[(0 : Rat)]] true false).2).visualization_coords_
        = none :=
  C9_degraded_visualization cenv0 st50 [[(0 : Rat)]] true (by simp) (by decide)

/-- C10: when discover_patterns raises on the empty batch, the instance's
retained last-fit state (all four retained fields, i.e. the whole instance
record) is exactly the state before the call. -/
theorem C10_atomic_on_empty (env : ClusterEnv) (st : PatternClusterer)
    (embeddings : List (List Rat)) (use_pca create_visualization : Bool)
    (h : embeddings.length = 0) :
    ((discover_patterns env st embeddings use_pca create_visualization).2 = st)
    ∧ ∃ msg, (discover_patterns env st embeddings use_pca create_visualization).1
        = .error (.valueError msg) := by
  have he := discover_patterns_empty env st embeddings use_pca create_visualization h
  exact ⟨by rw [he], ("No embeddings provided for clustering"), by rw [he]⟩

/-- Witness for C10 on the empty batch against a dirtied state. -/
theorem C10_atomic_on_empty_w :
    ((discover_patterns cenv0 ((discover_patterns cenv0 st50 [[(0 : Rat)]] true true).2)
        ([] : List (List Rat)) true true).2
      = (discover_patterns cenv0 st50 [[(0 : Rat)]] true true).2)
    ∧ ∃ msg, (discover_patterns cenv0 ((discover_patterns cenv0 st50 [[(0 : Rat)]] true true).2)
        ([] : List (List Rat)) true true).1 = .error (.valueError msg) :=
  C10_atomic_on_empty cenv0 ((discover_patterns cenv0 st50 [[(0 : Rat)]] true true).2)
    [] true true rfl

/-- C8: get_cluster_statistics on a freshly constructed clusterer raises the
not-fitted ValueError; after any successful discover_patterns call it
returns the statistics computed from that call's retained labels and
probabilities. -/
theorem C8_statistics_gating (mcs ms : Nat) (metric : String) (eps : Rat) (npca : Nat)
    (env : ClusterEnv) (st : PatternClusterer) (embeddings : List (List Rat))
    (use_pca create_visualization : Bool) :
    get_cluster_statistics (mkPatternClusterer mcs ms metric eps npca)
      = .error (.valueError ("Must run discover_patterns() first"))
    ∧ (∀ out, (discover_patterns env st embeddings use_pca create_visualization).1 = .ok out →
        ∃ labels probs,
          ((discover_patterns env st embeddings use_pca create_visualization).2).cluster_labels_
            = some labels
          ∧ ((discover_patterns env st embeddings use_pca create_visualization).2).probabilities_
            = some probs
          ∧ get_cluster_statistics
              ((discover_patterns env st embeddings use_pca create_visualization).2)
            = .ok (computeStats labels probs)) := by
  constructor
  · rfl
  · intro out hout
    by_cases h0 : embeddings.length = 0
    · rw [discover_patterns_empty env st embeddings use_pca create_visualization h0] at hout
      simp at hout
    · by_cases h2 : embeddings.length < st.min_cluster_size
      · have hd := discover_patterns_degraded env st embeddings use_pca create_visualization h0 h2
        exact ⟨List.replicate embeddings.length 0, List.replicate embeddings.length 1,
          by rw [hd], by rw [hd], by simp [hd, get_cluster_statistics]⟩
      · have hfull := discover_patterns_full env st embeddings use_pca create_visualization h0 h2
        rcases hfit : env.fit (min st.min_cluster_size embeddings.length)
            (effectiveMinSamples st embeddings.length) st.metric st.cluster_selection_epsilon
            (fitInput env st embeddings use_pca) with e | r
        · rw [hfull, hfit] at hout
          simp at hout
        · rw [hfit] at hfull
          exact ⟨r.labels, r.probabilities, by rw [hfull], by rw [hfull],
            by simp [hfull, get_cluster_statistics]⟩

/-- Witness for C8: the fresh default clusterer raises, and after a concrete
successful discover_patterns call the statistics are computed from the
retained arrays. -/
theorem C8_statistics_gating_w :
    ∃ labels probs,
      ((discover_patterns cenv0 st50 [[(0 : Rat)]] true true).2).cluster_labels_ = some labels
      ∧ ((discover_patterns cenv0 st50 [[(0 : Rat)]] true true).2).probabilities_ = some probs
      ∧ get_cluster_statistics ((discover_patterns cenv0 st50 [[(0 : Rat)]] true true).2)
          = .ok (computeStats labels probs) :=
  (C8_statistics_gating 50 10 ("euclidean") 0 50 cenv0 st50 [[(0 : Rat)]] true true).2
    (List.replicate 1 0, some (List.replicate 1 [(0 : Rat), 0])) rfl

/-- Counterexample to C5: a full validate_cluster_stability run in which the
period-1 cluster 0 (members {0}) is disjoint from the only non-noise
period-2 cluster 0 (members {2}), so every candidate similarity is 0; the
claim's reading makes the recorded best match the maximizing cluster 0
(ties to the smallest), but the code records None because the scan only
updates on strict improvement over the initial 0.0. -/
theorem C5_counterexample :
    (validate_cluster_stability cenvC5 stC5 [[(1 : Rat)], [2]] [[(1 : Rat)], [2], [3]] (3/10)).1
      = .ok { n_patterns_period1 := 1, n_patterns_period2 := 1,
              overlap_scores := [(0, { overlap := 0, best_match := none, is_stable := false })],
              n_stable_patterns := 0, stability_rate := 0, threshold_used := 3/10 }
    ∧ uniqueNonNoise [-1, -1, 0] = [0]
    ∧ ((none : Option Int) ≠ some 0) := by
  refine ⟨?_, by simp [uniqueNonNoise, sortInts, List.insertionSort, List.orderedInsert,
    List.dedup], by simp⟩
  have hjac : jaccardOverlap [0] [2] = 0 := by norm_num [jaccardOverlap]
  have hst : (decide ((3/10 : Rat) ≤ 0)) = false := by norm_num
  norm_num [validate_cluster_stability, discover_patterns, effectiveMinSamples, fitInput,
    firstRowLen, cenvC5, stC5, mkPatternClusterer, mkStabilityReport, overlap_scores_calc,
    overlapEntryFor, uniqueNonNoise, sortInts, List.insertionSort, List.orderedInsert,
    List.dedup, membersOf, List.enum, hjac, hst]

/-!
Analysis of the best-match scan (for the stability-validation claim).
-/

theorem runMax_cons (f : Int → Rat) (c : Int) (t : List Int) (m : Rat) :
    runMax f (c :: t) m = runMax f t (max m (f c)) := rfl

theorem le_runMax_seed (f : Int → Rat) (l : List Int) (m : Rat) : m ≤ runMax f l m := by
  induction l generalizing m with
  | nil => exact le_refl m
  | cons c t ih =>
    rw [runMax_cons]
    exact le_trans (le_max_left m (f c)) (ih (max m (f c)))

theorem le_runMax_of_mem (f : Int → Rat) (l : List Int) (m : Rat) (c : Int) (hc : c ∈ l) :
    f c ≤ runMax f l m := by
  induction l generalizing m with
  | nil => simp at hc
  | cons a t ih =>
    rw [runMax_cons]
    rcases List.mem_cons.mp hc with h | h
    · subst h
      exact le_trans (le_max_right m (f c)) (le_runMax_seed f t (max m (f c)))
    · exact ih (max m (f a)) h

theorem runMax_attained (f : Int → Rat) (l : List Int) (m : Rat) :
    runMax f l m = m ∨ ∃ c ∈ l, f c = runMax f l m := by
  induction l generalizing m with
  | nil => exact Or.inl rfl
  | cons a t ih =>
    rw [runMax_cons]
    rcases ih (max m (f a)) with h | ⟨c, hc, hfc⟩
    · rcases le_total (f a) m with hle | hle
      · rw [max_eq_left hle] at h ⊢
        exact Or.inl h
      · rw [max_eq_right hle] at h ⊢
        exact Or.inr ⟨a, List.mem_cons_self a t, h.symm⟩
    · exact Or.inr ⟨c, List.mem_cons_of_mem a hc, hfc⟩

theorem foldl_bestStep_fst (f : Int → Rat) (l : List Int) (m : Rat) (b : Option Int) :
    (l.foldl (bestStep f) (m, b)).1 = runMax f l m := by
  induction l generalizing m b with
  | nil => rfl
  | cons c t ih =>
    rw [List.foldl_cons, runMax_cons]
    by_cases h : m < f c
    · rw [show bestStep f (m, b) c = (f c, some c) from if_pos h, ih,
        max_eq_right (le_of_lt h)]
    · rw [show bestStep f (m, b) c = (m, b) from if_neg h, ih,
        max_eq_left (le_of_not_lt h)]

theorem foldl_bestStep_no_improve (f : Int → Rat) (l : List Int) (m : Rat) (b : Option Int)
    (h : ∀ c ∈ l, f c ≤ m) : l.foldl (bestStep f) (m, b) = (m, b) := by
  induction l with
  | nil => rfl
  | cons c t ih =>
    rw [List.foldl_cons,
      show bestStep f (m, b) c = (m, b) from if_neg (not_lt.mpr (h c (List.mem_cons_self c t)))]
    exact ih (fun d hd => h d (List.mem_cons_of_mem c hd))

theorem runMax_of_all_le (f : Int → Rat) (l : List Int) (m : Rat)
    (h : ∀ c ∈ l, f c ≤ m) : runMax f l m = m := by
  rcases runMax_attained f l m with hr | ⟨c, hc, hfc⟩
  · exact hr
  · exact le_antisymm (hfc ▸ h c hc) (le_runMax_seed f l m)

theorem foldl_bestStep_find (f : Int → Rat) (l : List Int) (m : Rat) (b : Option Int)
    (h : ∃ c ∈ l, m < f c) :
    (l.foldl (bestStep f) (m, b)).2
      = l.find? (fun c => decide (f c = runMax f l m)) := by
  induction l generalizing m b with
  | nil => simp at h
  | cons a t ih =>
    rw [List.foldl_cons, runMax_cons]
    by_cases hlt : m < f a
    · rw [show bestStep f (m, b) a = (f a, some a) from if_pos hlt,
        max_eq_right (le_of_lt hlt)]
      by_cases hall : ∀ d ∈ t, f d ≤ f a
      · rw [foldl_bestStep_no_improve f t (f a) (some a) hall, runMax_of_all_le f t (f a) hall]
        rw [List.find?_cons_of_pos]
        simp
      · push_neg at hall
        obtain ⟨d, hd, hda⟩ := hall
        have hne : ¬ (f a = runMax f t (f a)) := by
          have h1 : f d ≤ runMax f t (f a) := le_runMax_of_mem f t (f a) d hd
          intro heq
          rw [← heq] at h1
          exact absurd h1 (not_le.mpr hda)
        rw [ih (f a) (some a) ⟨d, hd, hda⟩, List.find?_cons_of_neg]
        simpa using hne
    · rw [show bestStep f (m, b) a = (m, b) from if_neg hlt,
        max_eq_left (le_of_not_lt hlt)]
      obtain ⟨c0, hc0, hc0m⟩ := h
      have hc0t : c0 ∈ t := by
        rcases List.mem_cons.mp hc0 with h1 | h1
        · subst h1; exact absurd hc0m hlt
        · exact h1
      have hne : ¬ (f a = runMax f t m) := by
        have h1 : f c0 ≤ runMax f t m := le_runMax_of_mem f t m c0 hc0t
        intro heq
        have : m < runMax f t m := lt_of_lt_of_le hc0m h1
        rw [← heq] at this
        exact hlt this
      rw [ih m b ⟨c0, hc0t, hc0m⟩, List.find?_cons_of_neg]
      simpa using hne

theorem find?_eq_some_of_mem (l : List Int) (p : Int → Bool) (c : Int)
    (hc : c ∈ l) (hp : p c = true) : ∃ x, l.find? p = some x := by
  induction l with
  | nil => simp at hc
  | cons a t ih =>
    by_cases hpa : p a = true
    · exact ⟨a, List.find?_cons_of_pos t hpa⟩
    · rcases List.mem_cons.mp hc with h1 | h1
      · subst h1; exact absurd hp hpa
      · obtain ⟨x, hx⟩ := ih h1
        exact ⟨x, by rw [List.find?_cons_of_neg t (by simpa using hpa), hx]⟩

theorem find?_min_of_sorted (l : List Int) (p : Int → Bool)
    (hs : List.Sorted (· ≤ ·) l) (x : Int) (hx : l.find? p = some x) :
    ∀ y ∈ l, p y = true → x ≤ y := by
  induction l with
  | nil => simp at hx
  | cons a t ih =>
    intro y hy hpy
    by_cases hpa : p a = true
    · rw [List.find?_cons_of_pos t hpa] at hx
      have hxa : x = a := by simpa using hx.symm
      subst hxa
      rcases List.mem_cons.mp hy with h1 | h1
      · exact le_of_eq h1.symm
      · exact (List.sorted_cons.mp hs).1 y h1
    · rw [List.find?_cons_of_neg t (by simpa using hpa)] at hx
      rcases List.mem_cons.mp hy with h1 | h1
      · subst h1; exact absurd hpy hpa
      · exact ih (List.sorted_cons.mp hs).2 hx y h1 hpy

theorem sortInts_sorted (l : List Int) : List.Sorted (· ≤ ·) (sortInts l) :=
  List.sorted_insertionSort (· ≤ ·) l

theorem jaccardOverlap_nonneg (s1 s2 : List Nat) : 0 ≤ jaccardOverlap s1 s2 := by
  simp only [jaccardOverlap]
  split
  · exact le_refl 0
  · exact div_nonneg (Nat.cast_nonneg _) (Nat.cast_nonneg _)

theorem lookup_map_self (l : List Int) (g : Int → OverlapEntry) (c : Int) (hc : c ∈ l) :
    (l.map (fun x => (x, g x))).lookup c = some (g c) := by
  induction l with
  | nil => simp at hc
  | cons a t ih =>
    by_cases hca : c = a
    · subst hca
      simp [List.lookup]
    · rcases List.mem_cons.mp hc with h1 | h1
      · exact absurd h1 hca
      · have hba : (c == a) = false := by simpa using hca
        simp [List.lookup, hba, ih h1]

/-- C5 (amended): in the stability validation, for every non-noise cluster
c1 of period 1, the recorded overlap is the maximum Jaccard similarity over
the non-noise period-2 clusters (0 if there are none), is_stable holds iff
that overlap meets or exceeds the threshold, and the recorded best match is
the smallest period-2 cluster attaining that maximum when the maximum is
positive, but None (not the maximizing cluster) when the maximum is 0. -/
theorem C5_amended_matching (labels1 labels2 : List Int) (threshold : Rat) (c1 : Int)
    (hc1 : c1 ∈ uniqueNonNoise labels1) :
    ∃ e, (overlap_scores_calc labels1 labels2 threshold).lookup c1 = some e
      ∧ e.overlap = maxJaccardOverlap (membersOf labels1 c1) labels2
      ∧ (∀ c ∈ uniqueNonNoise labels2,
          jaccardOverlap (membersOf labels1 c1) (membersOf labels2 c) ≤ e.overlap)
      ∧ e.is_stable = decide (threshold ≤ e.overlap)
      ∧ (e.overlap = 0 → e.best_match = none)
      ∧ (0 < e.overlap → ∃ c2, e.best_match = some c2
          ∧ c2 ∈ uniqueNonNoise labels2
          ∧ jaccardOverlap (membersOf labels1 c1) (membersOf labels2 c2) = e.overlap
          ∧ ∀ c ∈ uniqueNonNoise labels2,
              jaccardOverlap (membersOf labels1 c1) (membersOf labels2 c) = e.overlap →
                c2 ≤ c) := by
  classical
  set f : Int → Rat := fun c => jaccardOverlap (membersOf labels1 c1) (membersOf labels2 c)
    with hf
  have hfold : overlapEntryFor labels1 labels2 threshold c1
      = { overlap := ((uniqueNonNoise labels2).foldl (bestStep f) (0, none)).1,
          best_match := ((uniqueNonNoise labels2).foldl (bestStep f) (0, none)).2,
          is_stable :=
            decide (threshold ≤ ((uniqueNonNoise labels2).foldl (bestStep f) (0, none)).1) } :=
    rfl
  refine ⟨overlapEntryFor labels1 labels2 threshold c1, ?_, ?_, ?_, ?_, ?_, ?_⟩
  · exact lookup_map_self (uniqueNonNoise labels1)
      (fun x => overlapEntryFor labels1 labels2 threshold x) c1 hc1
  · rw [hfold]
    exact foldl_bestStep_fst f (uniqueNonNoise labels2) 0 none
  · intro c hcmem
    rw [hfold]
    show f c ≤ ((uniqueNonNoise labels2).foldl (bestStep f) (0, none)).1
    rw [foldl_bestStep_fst f (uniqueNonNoise labels2) 0 none]
    exact le_runMax_of_mem f (uniqueNonNoise labels2) 0 c hcmem
  · rw [hfold]
  · intro hz
    rw [hfold] at hz ⊢
    simp only at hz ⊢
    have hall : ∀ c ∈ uniqueNonNoise labels2, f c ≤ 0 := by
      intro c hcmem
      have h1 : f c ≤ ((uniqueNonNoise labels2).foldl (bestStep f) (0, none)).1 := by
        rw [foldl_bestStep_fst f (uniqueNonNoise labels2) 0 none]
        exact le_runMax_of_mem f (uniqueNonNoise labels2) 0 c hcmem
      rw [hz] at h1
      exact h1
    rw [foldl_bestStep_no_improve f (uniqueNonNoise labels2) 0 none hall]
  · intro hpos
    rw [hfold] at hpos ⊢
    simp only at hpos ⊢
    have hfst := foldl_bestStep_fst f (uniqueNonNoise labels2) 0 none
    have hne : runMax f (uniqueNonNoise labels2) 0 ≠ 0 := by
      rw [← hfst]
      exact ne_of_gt hpos
    rcases runMax_attained f (uniqueNonNoise labels2) 0 with hr | ⟨cs, hcs, hcsf⟩
    · exact absurd hr hne
    · have hcspos : 0 < f cs := by
        rw [hcsf, ← hfst]
        exact hpos
      have hfind := foldl_bestStep_find f (uniqueNonNoise labels2) 0 none ⟨cs, hcs, hcspos⟩
      obtain ⟨c2, hc2⟩ := find?_eq_some_of_mem (uniqueNonNoise labels2)
        (fun c => decide (f c = runMax f (uniqueNonNoise labels2) 0)) cs hcs
        (by simpa using hcsf)
      have hc2p : f c2 = runMax f (uniqueNonNoise labels2) 0 := by
        simpa using List.find?_some hc2
      refine ⟨c2, ?_, List.mem_of_find?_eq_some hc2, ?_, ?_⟩
      · rw [hfind, hc2]
      · show f c2 = _
        rw [hc2p, hfst]
      · intro c hcmem hceq
        have hceqf : f c = runMax f (uniqueNonNoise labels2) 0 := by
          show f c = _
          rw [← hfst]
          exact hceq
        exact find?_min_of_sorted (uniqueNonNoise labels2) _ (sortInts_sorted _) c2 hc2 c
          hcmem (by simpa using hceqf)

/-- Witness for C5 (amended) at the labels arising in the stability
counterexample run. -/
theorem C5_amended_matching_w :
    ∃ e, (overlap_scores_calc [0, -1] [-1, -1, 0] (3/10)).lookup 0 = some e
      ∧ e.overlap = maxJaccardOverlap (membersOf [0, -1] 0) [-1, -1, 0]
      ∧ (∀ c ∈ uniqueNonNoise [-1, -1, 0],
          jaccardOverlap (membersOf [0, -1] 0) (membersOf [-1, -1, 0] c) ≤ e.overlap)
      ∧ e.is_stable = decide ((3/10 : Rat) ≤ e.overlap)
      ∧ (e.overlap = 0 → e.best_match = none)
      ∧ (0 < e.overlap → ∃ c2, e.best_match = some c2
          ∧ c2 ∈ uniqueNonNoise [-1, -1, 0]
          ∧ jaccardOverlap (membersOf [0, -1] 0) (membersOf [-1, -1, 0] c2) = e.overlap
          ∧ ∀ c ∈ uniqueNonNoise [-1, -1, 0],
              jaccardOverlap (membersOf [0, -1] 0) (membersOf [-1, -1, 0] c) = e.overlap →
                c2 ≤ c) :=
  C5_amended_matching [0, -1] [-1, -1, 0] (3/10) 0 (by decide)
